import Mathlib

/-!
Verification development for the unified perfection detection module
(`horary/backend/horary_engine/perfection_core.py`).

The Python module is shallowly embedded below.  Modelling conventions:

* Python floats are modelled as exact rationals (`ℚ`); all arithmetic in the
  source (normalisation mod 360, divisions, comparisons) is then exact.
* Python `dict.get` / `getattr` with a default is modelled with `Option`;
  raising dictionary indexing (`chart.planets[p]`) is modelled in the
  `Except String` monad with error `"KeyError"`.
* `PerfectionEvent.metadata` is a `Dict[str, Any]` in the source whose values
  are never read — only `len(metadata)` and the key set matter — so it is
  modelled by its list of keys.
* Free-form `reason` strings are narrative only (no logic reads them); they
  are abbreviated to short constant strings.
* The external reception calculator (`TraditionalReceptionCalculator`) is an
  out-of-repository collaborator; it is modelled as an oracle parameter
  `RecOracle`.  The per-call reception cache is behaviourally transparent for
  a deterministic oracle and is therefore not materialised.
-/

namespace PerfectionCore

/-- The seven classical bodies (`models.Planet` as used by this module). -/
inductive Planet
  | SUN | MOON | MERCURY | VENUS | MARS | JUPITER | SATURN
deriving DecidableEq, Repr

/-- The five recognised aspect geometries (`models.Aspect`). -/
inductive Aspect
  | CONJUNCTION | SEXTILE | SQUARE | TRINE | OPPOSITION
deriving DecidableEq, Repr

/-- Source `aspect.degrees`: target separation of each aspect. -/
def Aspect.degrees : Aspect → ℚ
  | .CONJUNCTION => 0
  | .SEXTILE => 60
  | .SQUARE => 90
  | .TRINE => 120
  | .OPPOSITION => 180

/-- Source `EventType`: the ten perfection event families. -/
inductive EventType
  | DIRECT | DIRECT_PENALIZED | HOUSE_PLACEMENT | TRANSLATION | COLLECTION
  | PROHIBITION | ABSCISSION | REFRANATION | FRUSTRATION | COMBUSTION_VETO
deriving DecidableEq, Repr

/-- A planet's position snapshot.  `daily_motion` and `speed` model the two
optional attributes interrogated by `_get_daily_motion`; `house` models the
optional `house` attribute; `combust` models
`solar_condition.condition == SolarCondition.COMBUSTION` (false also covers a
missing `solar_condition` attribute). -/
structure PlanetPosition where
  longitude : ℚ
  daily_motion : Option ℚ
  speed : Option ℚ
  house : Option Nat
  combust : Bool
deriving DecidableEq, Repr

/-- The chart as read by this module: a body-to-position mapping plus the
optional significator house data used by `_detect_house_placement_events`
(`none` covers both a missing mapping and the `AttributeError` path that the
detector swallows). The pair is `(querent_house, quesited_house)`. -/
structure HoraryChart where
  planets : Planet → Option PlanetPosition
  significators : Option (Nat × Nat)

/-- Reception summary as consumed from the external reception capability
(fields accessed through `.get`, hence optional / defaulted). -/
structure ReceptionData where
  rtype : Option String
  mutual_kind : Option String
  one_way : List String
deriving DecidableEq, Repr

/-- The external reception classifier interface:
`classify(chart, a, b) → ReceptionData`, deterministic and side-effect free.
The chart argument is fixed per detection call, so the oracle is keyed by the
ordered pair only. -/
def RecOracle := Planet → Planet → ReceptionData

/-- Configuration knobs read by the module (flattened; defaults as documented
in the source's `getattr` fallbacks). -/
structure HoraryConfig where
  allow_out_of_sign_hits : Bool
  perfection_allow_out_of_sign : Bool
  perfection_require_in_sign : Bool
  translation_require_speed_advantage : Bool
  translation_max_lookback_days : ℚ
  confidence_same_ruler : Int
  confidence_direct_basic : Int
  hard_square_penalty : Int
  hard_opposition_penalty : Int
  mutual_rulership_bonus : Int
  mutual_exaltation_bonus : Int
  confidence_translation_of_light : Int
  confidence_collection_of_light : Int
  confidence_refranation : Int
  confidence_abscission : Int
  confidence_frustration : Int
deriving Repr

/-- Global time-comparison tolerance `EPS = 1e-3` days. -/
def EPS : ℚ := 1/1000

/-- Executable floor on `ℚ` (kernel-reducible; equal to `Int.floor`). -/
def ratFloor (q : ℚ) : ℤ := q.num / (q.den : ℤ)

/-- Python `%` (modulo) for a positive rational modulus:
`a - b * floor (a / b)`, giving a result in `[0, b)`. -/
def pymod (a b : ℚ) : ℚ := a - b * (ratFloor (a / b) : ℚ)

/-- Source `_norm180`: normalise an angle into `[-180, 180)`. -/
def norm180 (x : ℚ) : ℚ := pymod (x + 180) 360 - 180

/-- Python `round(x, 4)` (round half to even at the fourth decimal). -/
def pyRound4 (x : ℚ) : ℚ :=
  let y := x * 10000
  let f : ℤ := ratFloor y
  let frac := y - (f : ℚ)
  let r : ℤ :=
    if frac < 1/2 then f
    else if 1/2 < frac then f + 1
    else if f % 2 = 0 then f else f + 1
  (r : ℚ) / 10000

/-- A perfection event.  Field names follow the Python dataclass. -/
structure PerfectionEvent where
  event_type : EventType
  primary_pair : Planet × Planet
  mediator : Option Planet
  aspect : Option Aspect
  reception_data : Option ReceptionData
  exact_in_days : Option ℚ
  favorable : Bool
  confidence : Option Int
  reason : String
  challenges : List String
  quality_tags : List String
  metadata : List String
deriving DecidableEq, Repr

/-- The components of the de-duplication key string.  Equality of this tuple
coincides with equality of the Python `f"{type}:{p1}:{p2}:{mediator}:{aspect}:{timing}"`
string (every component renders injectively and contains no separator). -/
abbrev EventKey := EventType × Planet × Planet × Option Planet × Option Aspect × ℚ

/-- Timing component of `event_key`:
`round(self.exact_in_days, 4) if self.exact_in_days else 0.0`.
Note the Python truthiness test: both `None` and `0.0` take the `else` branch. -/
def timingKey : Option ℚ → ℚ
  | none => 0
  | some t => if t = 0 then 0 else pyRound4 t

/-- Source `PerfectionEvent.event_key`. -/
def PerfectionEvent.event_key (e : PerfectionEvent) : EventKey :=
  (e.event_type, e.primary_pair.1, e.primary_pair.2, e.mediator, e.aspect,
    timingKey e.exact_in_days)

/-- Source `_get_daily_motion`: prefer `daily_motion`, fall back to `speed`, else 0
(also 0 when the position itself is missing / falsy). -/
def get_daily_motion : Option PlanetPosition → ℚ
  | none => 0
  | some pos =>
    match pos.daily_motion with
    | some dm => dm
    | none =>
      match pos.speed with
      | some sp => sp
      | none => 0

/-- Candidate target separations for an aspect's geometry (`±A` symmetry for
non-axial aspects, `±180` for the opposition). -/
def aspect_targets (aspect : Aspect) : List ℚ :=
  if aspect.degrees = 0 then [0]
  else if aspect.degrees = 180 then [180, -180]
  else [aspect.degrees, -aspect.degrees]

/-- Python `min(xs, key=abs)` over a nonempty list (first minimiser wins). -/
def minByAbs (x : ℚ) (xs : List ℚ) : ℚ :=
  xs.foldl (fun b d => if |d| < |b| then d else b) x

/-- Minimal signed delta from exact for the aspect:
`min([norm180(sep_now - t) for t in targets], key=abs)` with
`sep_now = (lon_b - lon_a + 180) % 360 - 180`. -/
def aspectDelta (lon_a lon_b : ℚ) (aspect : Aspect) : ℚ :=
  let sep_now := pymod (lon_b - lon_a + 180) 360 - 180
  match (aspect_targets aspect).map (fun tg => norm180 (sep_now - tg)) with
  | [] => 0
  | d :: ds => minByAbs d ds

/-- Forward-only root: `t = -delta / v`; when `t ≤ 0`, advance by
`k = int((-t) // period + 1)` whole synodic periods `period = 360/|v|`. -/
def forward_t (delta v : ℚ) : ℚ :=
  let t := -delta / v
  if t ≤ 0 then
    let period := 360 / |v|
    let k : ℤ := ratFloor (-t / period) + 1
    t + (k : ℚ) * period
  else t

/-- Modelled from the spec: `days_to_sign_exit` is imported from
`horary_engine/calculation/helpers.py`, which is not part of this source
tree.  Per the spec it computes "each body's days-to-current-sign-boundary-
exit from its rate": the angular distance to the boundary of the current 30°
sign in the direction of motion, divided by the rate; a motionless body never
exits (indeterminate). -/
def days_to_sign_exit (lon speed : ℚ) : Option ℚ :=
  if 0 < speed then some ((30 - pymod lon 30) / speed)
  else if speed < 0 then some (pymod lon 30 / (-speed))
  else none

/-- Whether the sign-exit guard is enforced:
`(not allow_out_of_sign_hits) and (not perfection.allow_out_of_sign) and
bool(perfection.require_in_sign)`. -/
def enforce_sign_guard (cfg : HoraryConfig) : Bool :=
  !cfg.allow_out_of_sign_hits && !cfg.perfection_allow_out_of_sign &&
    cfg.perfection_require_in_sign

/-- The guard's blocking test: the solved `t` exceeds either body's
days-to-sign-exit.  Note the source reads `getattr(pos, 'speed', 0.0)` here
— the raw `speed` attribute, not `_get_daily_motion`. -/
def sign_exit_blocks (pos_a pos_b : PlanetPosition) (t : ℚ) : Bool :=
  (match days_to_sign_exit pos_a.longitude (pos_a.speed.getD 0) with
   | some days_a => decide (days_a < t)
   | none => false) ||
  (match days_to_sign_exit pos_b.longitude (pos_b.speed.getD 0) with
   | some days_b => decide (days_b < t)
   | none => false)

/-- Source `TimingKernel.when_exact_in_days`: days until the next forward-only
exact hit of `aspect`, or `none`.  (`aspect.degrees` is always present in
the model, so the source's `target is None` early exit is vacuous.) -/
def when_exact_in_days (cfg : HoraryConfig) (chart : HoraryChart)
    (planet_a planet_b : Planet) (aspect : Aspect) : Option ℚ :=
  match chart.planets planet_a, chart.planets planet_b with
  | some pos_a, some pos_b =>
    let delta := aspectDelta pos_a.longitude pos_b.longitude aspect
    let v_rel := get_daily_motion (some pos_b) - get_daily_motion (some pos_a)
    if |v_rel| < 1/1000000 then
      if |delta| < 1/1000 then some 0 else none
    else
      let t := forward_t delta v_rel
      if enforce_sign_guard cfg && sign_exit_blocks pos_a pos_b t then none
      else some t
  | _, _ => none

/-- The fixed aspect scan order used by every loop over geometries. -/
def aspect_scan_order : List Aspect :=
  [.CONJUNCTION, .SEXTILE, .SQUARE, .TRINE, .OPPOSITION]

/-- The fixed ordered enumeration of the seven classical bodies. -/
def classical_planets : List Planet :=
  [.SUN, .MOON, .MERCURY, .VENUS, .MARS, .JUPITER, .SATURN]

/-- Result record of `_current_direct_route`. -/
structure DirectRoute where
  aspect : Aspect
  timing : ℚ
  applier : Planet
  receiver : Planet
deriving DecidableEq, Repr

/-- Source `TimingKernel._current_direct_route`: earliest direct perfection within
the window; the faster significator (by `|daily motion|`, ties to the
querent) is the applier. -/
def current_direct_route (cfg : HoraryConfig) (chart : HoraryChart)
    (querent quesited : Planet) (window_days : ℚ) : Option DirectRoute :=
  aspect_scan_order.foldl (fun best aspect =>
    match when_exact_in_days cfg chart querent quesited aspect with
    | none => best
    | some t =>
      if window_days < t then best
      else
        let sp_q := |get_daily_motion (chart.planets querent)|
        let sp_e := |get_daily_motion (chart.planets quesited)|
        let cand : DirectRoute :=
          if sp_e ≤ sp_q then ⟨aspect, t, querent, quesited⟩
          else ⟨aspect, t, quesited, querent⟩
        match best with
        | none => some cand
        | some b => if cand.timing < b.timing then some cand else some b) none

/-- Result record of the applying/separating aspect finders. -/
structure AspectHit where
  aspect : Aspect
  timing : ℚ
  target : Planet
deriving DecidableEq, Repr

/-- Source `_find_applying_aspect`: earliest applying aspect within the window.
The Python guard `if timing and 0 < timing <= window_days` rejects a timing
of exactly `0.0` through truthiness before the range test. -/
def find_applying_aspect (cfg : HoraryConfig) (chart : HoraryChart)
    (planet1 planet2 : Planet) (window_days : ℚ) : Option AspectHit :=
  aspect_scan_order.foldl (fun best aspect =>
    match when_exact_in_days cfg chart planet1 planet2 aspect with
    | none => best
    | some t =>
      if t = 0 then best
      else if 0 < t ∧ t ≤ window_days then
        match best with
        | none => some ⟨aspect, t, planet2⟩
        | some b => if t < b.timing then some ⟨aspect, t, planet2⟩ else some b
      else best) none

/-- Source `_find_separating_aspect`: the most recent separating aspect within
`window_days` of look-back; `timing` is the negated look-back `-dt`. -/
def find_separating_aspect (chart : HoraryChart) (planet1 planet2 : Planet)
    (window_days : ℚ) : Option AspectHit :=
  match chart.planets planet1, chart.planets planet2 with
  | some pos1, some pos2 =>
    let delta := pymod (pos2.longitude - pos1.longitude) 360
    let v_rel := get_daily_motion (some pos2) - get_daily_motion (some pos1)
    if |v_rel| < 1/1000000 then none
    else
      aspect_scan_order.foldl (fun best aspect =>
        (aspect_targets aspect).foldl (fun best target =>
          let dt := if 0 < v_rel then pymod (delta - target) 360 / v_rel
                    else pymod (target - delta) 360 / (-v_rel)
          if 0 < dt ∧ dt ≤ window_days then
            match best with
            | none => some ⟨aspect, -dt, planet2⟩
            | some b => if dt < -b.timing then some ⟨aspect, -dt, planet2⟩ else some b
          else best) best) none
  | _, _ => none

/-- Source `_find_earliest_application`: the very next applying aspect from
`planet` to any classical planet, excluding `exclude` targets. -/
def find_earliest_application (cfg : HoraryConfig) (chart : HoraryChart)
    (planet : Planet) (window_days : ℚ) (exclude : List Planet) : Option AspectHit :=
  classical_planets.foldl (fun best other =>
    if other = planet ∨ other ∈ exclude then best
    else
      match find_applying_aspect cfg chart planet other window_days with
      | none => best
      | some cand =>
        match best with
        | none => some ⟨cand.aspect, cand.timing, other⟩
        | some b =>
          if cand.timing < b.timing then some ⟨cand.aspect, cand.timing, other⟩
          else some b) none

/-- Source `_get_cached_reception` (the memo cache is behaviourally transparent for
the deterministic oracle; identity pairs get the dedicated identity summary). -/
def get_cached_reception (rec : RecOracle) (planet1 planet2 : Planet) : ReceptionData :=
  if planet1 = planet2 then ⟨some "identity", some "identity", []⟩
  else rec planet1 planet2

/-- Python truthiness of an optional string (`None` and `""` are falsy). -/
def truthyStr : Option String → Bool
  | none => false
  | some s => !(s == "")

/-- Source `_is_combustion_conjunction`: true when the conjunction involves the Sun
and the other body is flagged combust (raising `chart.planets[other]`
indexing when that body is missing). -/
def is_combustion_conjunction (chart : HoraryChart) (planet1 planet2 : Planet) :
    Except String Bool :=
  if planet1 ≠ Planet.SUN ∧ planet2 ≠ Planet.SUN then .ok false
  else
    let other_planet := if planet1 = Planet.SUN then planet2 else planet1
    match chart.planets other_planet with
    | some other_pos => .ok other_pos.combust
    | none => .error "KeyError"

/-- Cadent houses. -/
def cadent_houses : List Nat := [3, 6, 9, 12]

/-- Source `_assess_direct_aspect_quality`, returning
`(favorable, challenges, quality_tags)`.  The `reception_data.get("mutual",
"none")` read collapses a `None` value and a missing key — both behave like
a non-matching string in every comparison below.  Uses raising significator
indexing like the source (callers only reach it with both bodies present). -/
def assess_direct_aspect_quality (chart : HoraryChart) (aspect : Aspect)
    (reception_data : ReceptionData) (querent quesited : Planet) :
    Except String (Bool × List String × List String) :=
  match chart.planets querent, chart.planets quesited with
  | some querent_pos, some quesited_pos =>
    let hard := aspect = Aspect.SQUARE ∨ aspect = Aspect.OPPOSITION
    let challenges0 : List String := if hard then ["hard_aspect"] else []
    let quality0 : List String := if hard then ["with difficulty"] else ["easier"]
    let challenges1 := challenges0 ++
      (match querent_pos.house with
       | some h => if h ∈ cadent_houses then ["cadent_querent"] else []
       | none => []) ++
      (match quesited_pos.house with
       | some h => if h ∈ cadent_houses then ["cadent_quesited"] else []
       | none => [])
    let mutualK := reception_data.mutual_kind.getD "none"
    if mutualK = "identity" then .ok (true, [], ["identity/union"])
    else
      let strong := mutualK = "mutual_rulership" ∨ mutualK = "mutual_exaltation"
      let pair :=
        if strong then
          if "hard_aspect" ∈ challenges1 then
            (challenges1.erase "hard_aspect", ["easier"])
          else (challenges1, quality0)
        else if mutualK = "mixed_reception" then
          (challenges1, quality0 ++ ["mitigated by reception"])
        else (challenges1, quality0)
      .ok (pair.1.isEmpty ∨ strong, pair.1, pair.2)
  | _, _ => .error "KeyError"

/-- Source `_calculate_direct_confidence`. -/
def calculate_direct_confidence (cfg : HoraryConfig) (aspect : Aspect)
    (reception_data : ReceptionData) (challenges : List String) : Int :=
  let base := cfg.confidence_direct_basic
  let base :=
    if "hard_aspect" ∈ challenges then
      let penalty := if aspect = Aspect.SQUARE then cfg.hard_square_penalty
                     else cfg.hard_opposition_penalty
      max (base - penalty) 10
    else base
  let mutualK := reception_data.mutual_kind.getD "none"
  if mutualK = "mutual_rulership" then min (base + cfg.mutual_rulership_bonus) 100
  else if mutualK = "mutual_exaltation" then min (base + cfg.mutual_exaltation_bonus) 100
  else base

/-- Source `_detect_direct_events`: pick the earliest in-window aspect, veto a
combust conjunction, otherwise classify `DIRECT` / `DIRECT_PENALIZED`. -/
def detect_direct_events (cfg : HoraryConfig) (rec : RecOracle) (chart : HoraryChart)
    (querent quesited : Planet) (window_days : ℚ) :
    Except String (List PerfectionEvent) :=
  let candidates := aspect_scan_order.filterMap (fun aspect =>
    match when_exact_in_days cfg chart querent quesited aspect with
    | none => none
    | some t => if window_days < t then none else some (aspect, t))
  match candidates with
  | [] => .ok []
  | c :: cs =>
    let chosen := cs.foldl (fun b x => if x.2 < b.2 then x else b) c
    let aspect := chosen.1
    let timing := chosen.2
    let reception_data := get_cached_reception rec querent quesited
    match (if aspect = Aspect.CONJUNCTION then
        is_combustion_conjunction chart querent quesited
      else .ok false) with
    | .error e => .error e
    | .ok veto =>
      if veto then
        .ok [{ event_type := EventType.COMBUSTION_VETO,
               primary_pair := (querent, quesited), mediator := some Planet.SUN,
               aspect := some aspect, reception_data := none,
               exact_in_days := some timing, favorable := false, confidence := none,
               reason := "combustion at conjunction", challenges := ["combustion"],
               quality_tags := [], metadata := [] }]
      else
        match assess_direct_aspect_quality chart aspect reception_data querent quesited with
        | .error e => .error e
        | .ok assessed =>
          let favorable := assessed.1
          let challenges := assessed.2.1
          let quality_tags := assessed.2.2
          let etype := if challenges.isEmpty then EventType.DIRECT
                       else EventType.DIRECT_PENALIZED
          let confidence := calculate_direct_confidence cfg aspect reception_data challenges
          .ok [{ event_type := etype, primary_pair := (querent, quesited),
                 mediator := none, aspect := some aspect,
                 reception_data := some reception_data, exact_in_days := some timing,
                 favorable := favorable, confidence := some confidence,
                 reason := "aspect between significators", challenges := challenges,
                 quality_tags := quality_tags, metadata := [] }]

/-- First third body (in classical order) whose applying aspect to `target`
completes with `0 < timing < t_limit`, skipping `skip` — the abscission
guard loop shared by translation and collection. -/
def first_interceptor (cfg : HoraryConfig) (chart : HoraryChart)
    (skip : List Planet) (target : Planet) (window_days t_limit : ℚ) :
    Option (Planet × AspectHit) :=
  classical_planets.findSome? (fun other =>
    if other ∈ skip then none
    else
      match find_applying_aspect cfg chart other target window_days with
      | none => none
      | some app =>
        if 0 < app.timing ∧ app.timing < t_limit then some (other, app) else none)

/-- The mediator loop order of `_detect_translation_events`. -/
def translator_candidates : List Planet :=
  [.MOON, .MERCURY, .VENUS, .MARS, .JUPITER, .SATURN]

/-- Source `_detect_translation_events` (strict rules: sequence, speed advantage,
separation recency, no intervening application, abscission guard). -/
def detect_translation_events (cfg : HoraryConfig) (rec : RecOracle)
    (chart : HoraryChart) (querent quesited : Planet) (window_days : ℚ) :
    List PerfectionEvent :=
  if querent = quesited then []
  else translator_candidates.flatMap (fun translator =>
    if translator = querent ∨ translator = quesited then []
    else
      let fwd := (find_separating_aspect chart translator querent window_days,
                  find_applying_aspect cfg chart translator quesited window_days)
      let legs := if fwd.1.isSome && fwd.2.isSome then fwd
                  else (find_separating_aspect chart translator quesited window_days,
                        find_applying_aspect cfg chart translator querent window_days)
      match legs with
      | (some sep_event, some app_event) =>
        if sep_event.timing < app_event.timing then
          let tr_sp := |get_daily_motion (chart.planets translator)|
          let q_sp := |get_daily_motion (chart.planets querent)|
          let qe_sp := |get_daily_motion (chart.planets quesited)|
          if cfg.translation_require_speed_advantage ∧ ¬(q_sp < tr_sp ∧ qe_sp < tr_sp) then []
          else if cfg.translation_max_lookback_days < -sep_event.timing then []
          else
            let receiver := app_event.target
            match find_earliest_application cfg chart translator window_days [sep_event.target] with
            | none => []
            | some earliest_next =>
              if earliest_next.target ≠ receiver ∨
                  EPS < |earliest_next.timing - app_event.timing| then []
              else
                match first_interceptor cfg chart [translator, querent, quesited]
                    receiver window_days app_event.timing with
                | some hit =>
                  [{ event_type := EventType.ABSCISSION,
                     primary_pair := (querent, quesited), mediator := some hit.1,
                     aspect := some hit.2.aspect, reception_data := none,
                     exact_in_days := some hit.2.timing, favorable := false,
                     confidence := some cfg.confidence_abscission,
                     reason := "abscission before translation completes",
                     challenges := [], quality_tags := [],
                     metadata := ["receiver", "interceptor", "abscises_translator"] }]
                | none =>
                  let reception_data := get_cached_reception rec querent quesited
                  let recept_sep := get_cached_reception rec translator sep_event.target
                  let recept_app := get_cached_reception rec translator app_event.target
                  let hard_second_leg := app_event.aspect = Aspect.SQUARE ∨
                    app_event.aspect = Aspect.OPPOSITION
                  let anti_sep := recept_sep.rtype = some "detriment_or_fall_against_translator"
                  let hostile := hard_second_leg ∧ truthyStr recept_app.mutual_kind = false ∧
                    recept_app.one_way = []
                  let challenges := (if hostile then ["hard_second_leg_no_reception"] else []) ++
                    (if anti_sep then ["anti_reception_first_leg"] else [])
                  let quality_tags := ["translation"] ++ (if hostile then ["hostile"] else [])
                  let confidence := if hostile
                    then max (cfg.confidence_translation_of_light - 20) 20
                    else cfg.confidence_translation_of_light
                  [{ event_type := EventType.TRANSLATION,
                     primary_pair := (querent, quesited), mediator := some translator,
                     aspect := none, reception_data := some reception_data,
                     exact_in_days := some app_event.timing, favorable := !hostile,
                     confidence := some confidence, reason := "translation of light",
                     challenges := challenges, quality_tags := quality_tags,
                     metadata := ["separation", "application"] }]
        else []
      | _ => [])

/-- Source `_is_valid_collector`: strictly slower than both significators (raising
indexing on all three bodies, like the source). -/
def is_valid_collector (chart : HoraryChart) (collector sig1 sig2 : Planet) :
    Except String Bool :=
  match chart.planets collector, chart.planets sig1, chart.planets sig2 with
  | some collector_pos, some sig1_pos, some sig2_pos =>
    .ok (decide (|get_daily_motion (some collector_pos)| <
      min |get_daily_motion (some sig1_pos)| |get_daily_motion (some sig2_pos)|))
  | _, _, _ => .error "KeyError"

/-- Sequential accumulation of a loop body that may raise, appending each
iteration's events in order. -/
def collectExcept (f : α → Except String (List PerfectionEvent)) :
    List α → Except String (List PerfectionEvent)
  | [] => .ok []
  | p :: ps =>
    match f p with
    | .error e => .error e
    | .ok l =>
      match collectExcept f ps with
      | .error e => .error e
      | .ok rest => .ok (l ++ rest)

/-- Per-collector body of `_detect_collection_events`. -/
def collection_events_for (cfg : HoraryConfig) (rec : RecOracle)
    (chart : HoraryChart) (querent quesited : Planet) (window_days : ℚ)
    (collector : Planet) : Except String (List PerfectionEvent) :=
  if collector = querent ∨ collector = quesited then .ok []
  else
    match is_valid_collector chart collector querent quesited with
    | .error e => .error e
    | .ok valid =>
    if !valid then .ok []
    else
      match find_applying_aspect cfg chart querent collector window_days,
            find_applying_aspect cfg chart quesited collector window_days with
      | some querent_app, some quesited_app =>
        let collection_time := max querent_app.timing quesited_app.timing
        match first_interceptor cfg chart [collector, querent, quesited] collector
            window_days (collection_time - EPS) with
        | some hit =>
          .ok [{ event_type := EventType.ABSCISSION,
                 primary_pair := (querent, quesited), mediator := some hit.1,
                 aspect := some hit.2.aspect, reception_data := none,
                 exact_in_days := some hit.2.timing, favorable := false,
                 confidence := some cfg.confidence_abscission,
                 reason := "abscission before collection completes",
                 challenges := [], quality_tags := [],
                 metadata := ["collector", "interceptor"] }]
        | none =>
          match find_earliest_application cfg chart querent window_days [],
                find_earliest_application cfg chart quesited window_days [] with
          | some qa_next, some qe_next =>
            if qa_next.target = collector ∧ qe_next.target = collector then
              let reception_data := get_cached_reception rec querent quesited
              let rec_q := get_cached_reception rec collector querent
              let rec_e := get_cached_reception rec collector quesited
              let both_received := rec_q.one_way ≠ [] ∧ rec_e.one_way ≠ []
              let confidence := if both_received
                then cfg.confidence_collection_of_light
                else max (cfg.confidence_collection_of_light - 15) 25
              .ok [{ event_type := EventType.COLLECTION,
                     primary_pair := (querent, quesited), mediator := some collector,
                     aspect := none, reception_data := some reception_data,
                     exact_in_days := some collection_time,
                     favorable := decide both_received, confidence := some confidence,
                     reason := "collection of light",
                     challenges := if both_received then [] else ["weak_reception_to_collector"],
                     quality_tags := [],
                     metadata := ["querent_application", "quesited_application"] }]
            else .ok []
          | _, _ => .ok []
      | _, _ => .ok []

/-- Source `_detect_collection_events`. -/
def detect_collection_events (cfg : HoraryConfig) (rec : RecOracle)
    (chart : HoraryChart) (querent quesited : Planet) (window_days : ℚ) :
    Except String (List PerfectionEvent) :=
  if querent = quesited then .ok []
  else collectExcept (collection_events_for cfg rec chart querent quesited window_days)
    classical_planets

/-- Source `_detect_house_placement_events`: immediate testimony when a
significator occupies the other's house.  The `try/except` around the
significator lookup (which also swallows the `AttributeError` raised on
charts without a `.get`) collapses to the `none` branch. -/
def detect_house_placement_events (chart : HoraryChart) (querent quesited : Planet) :
    List PerfectionEvent :=
  match chart.significators with
  | none => []
  | some sigs =>
    (match chart.planets querent with
     | some querent_pos =>
       match querent_pos.house with
       | some h =>
         if h = sigs.2 then
           [{ event_type := EventType.HOUSE_PLACEMENT,
              primary_pair := (querent, quesited), mediator := none, aspect := none,
              reception_data := none, exact_in_days := some 0, favorable := true,
              confidence := some 75, reason := "querent in quesited house",
              challenges := [], quality_tags := [], metadata := ["placement_type"] }]
         else []
       | none => []
     | none => []) ++
    (match chart.planets quesited with
     | some quesited_pos =>
       match quesited_pos.house with
       | some h =>
         if h = sigs.1 then
           [{ event_type := EventType.HOUSE_PLACEMENT,
              primary_pair := (querent, quesited), mediator := none, aspect := none,
              reception_data := none, exact_in_days := some 0, favorable := true,
              confidence := some 75, reason := "quesited in querent house",
              challenges := [], quality_tags := [], metadata := ["placement_type"] }]
         else []
       | none => []
     | none => [])

/-- Source `_detect_prohibition_events`: a faster third body reaches the receiver
of the earliest applying direct route strictly before
`min(t_direct, earliest_positive_time) - EPS` and does not immediately hand
off back to the applier. -/
def detect_prohibition_events (cfg : HoraryConfig) (chart : HoraryChart)
    (querent quesited : Planet) (window_days : ℚ)
    (earliest_positive_time : Option ℚ) : List PerfectionEvent :=
  let app_q_to_e := find_applying_aspect cfg chart querent quesited window_days
  let app_e_to_q := find_applying_aspect cfg chart quesited querent window_days
  match app_q_to_e, app_e_to_q with
  | none, none => []
  | oq, oe =>
    let route : Planet × Planet × ℚ :=
      match oq, oe with
      | some a, none => (querent, quesited, a.timing)
      | some a, some b =>
        if a.timing ≤ b.timing then (querent, quesited, a.timing)
        else (quesited, querent, b.timing)
      | none, some b => (quesited, querent, b.timing)
      | none, none => (querent, quesited, 0)
    let applier := route.1
    let receiver := route.2.1
    let t_direct := route.2.2
    let threshold :=
      match earliest_positive_time with
      | some ept => if ept < t_direct then ept else t_direct
      | none => t_direct
    classical_planets.flatMap (fun p =>
      if p = querent ∨ p = quesited then []
      else
        match find_applying_aspect cfg chart p receiver window_days with
        | none => []
        | some app =>
          if ¬(0 < app.timing ∧ app.timing < threshold - EPS) then []
          else if |get_daily_motion (chart.planets p)| ≤
              |get_daily_motion (chart.planets receiver)| then []
          else
            let ev : PerfectionEvent :=
              { event_type := EventType.PROHIBITION,
                primary_pair := (querent, quesited), mediator := some p,
                aspect := some app.aspect, reception_data := none,
                exact_in_days := some app.timing, favorable := false,
                confidence := none, reason := "prohibition",
                challenges := [], quality_tags := [],
                metadata := ["target", "preempts_in_days"] }
            match find_earliest_application cfg chart p window_days [receiver] with
            | some nxt =>
              if |nxt.timing - app.timing| ≤ EPS ∧ nxt.target = applier then []
              else [ev]
            | none => [ev])

/-- Planets subject to the near-station proxy. -/
def stationing_planets : List Planet :=
  [.MERCURY, .VENUS, .MARS, .JUPITER, .SATURN]

/-- Source `_will_station_before` (the `days` argument is accepted but unused by
the simplified near-station check, mirroring the source). -/
def will_station_before (chart : HoraryChart) (planet : Planet) (days : ℚ) : Bool :=
  match chart.planets planet with
  | none => false
  | some pos =>
    let current_speed := get_daily_motion (some pos)
    if current_speed ≤ 0 then false
    else if planet ∈ stationing_planets then decide (|current_speed| < 1/10)
    else false

/-- One aspect's refranation contribution inside `_detect_denial_events`.
Note the truthiness guard `if timing:` — `None` **and `0.0`** both skip —
and the raising `chart.planets[querent]` / `[quesited]` indexing inside. -/
def refranation_for_aspect (cfg : HoraryConfig) (chart : HoraryChart)
    (querent quesited : Planet) (aspect : Aspect) :
    Except String (List PerfectionEvent) :=
  match when_exact_in_days cfg chart querent quesited aspect with
  | none => .ok []
  | some timing =>
    if timing = 0 then .ok []
    else
      match chart.planets querent, chart.planets quesited with
      | some querent_pos, some quesited_pos =>
        .ok ((if 0 < get_daily_motion (some querent_pos) ∧
                will_station_before chart querent timing = true then
              [{ event_type := EventType.REFRANATION,
                 primary_pair := (querent, quesited), mediator := none,
                 aspect := some aspect, reception_data := none,
                 exact_in_days := some timing, favorable := false,
                 confidence := some cfg.confidence_refranation,
                 reason := "refranation by querent", challenges := [],
                 quality_tags := [], metadata := ["refraning_planet"] }]
            else []) ++
            (if 0 < get_daily_motion (some quesited_pos) ∧
                will_station_before chart quesited timing = true then
              [{ event_type := EventType.REFRANATION,
                 primary_pair := (querent, quesited), mediator := none,
                 aspect := some aspect, reception_data := none,
                 exact_in_days := some timing, favorable := false,
                 confidence := some cfg.confidence_refranation,
                 reason := "refranation by quesited", challenges := [],
                 quality_tags := [], metadata := ["refraning_planet"] }]
            else []))
      | _, _ => .error "KeyError"

/-- Source `_detect_abscission_events` (general route form). -/
def detect_abscission_events (cfg : HoraryConfig) (chart : HoraryChart)
    (querent quesited : Planet) (window_days : ℚ) : List PerfectionEvent :=
  match current_direct_route cfg chart querent quesited window_days with
  | none => []
  | some route =>
    classical_planets.flatMap (fun p =>
      if p = querent ∨ p = quesited then []
      else
        match find_applying_aspect cfg chart p route.applier window_days with
        | none => []
        | some app =>
          if ¬(0 < app.timing ∧ app.timing < route.timing - EPS) then []
          else if |get_daily_motion (chart.planets p)| ≤
              |get_daily_motion (chart.planets route.applier)| then []
          else
            let ev : PerfectionEvent :=
              { event_type := EventType.ABSCISSION,
                primary_pair := (querent, quesited), mediator := some p,
                aspect := some app.aspect, reception_data := none,
                exact_in_days := some app.timing, favorable := false,
                confidence := some cfg.confidence_abscission,
                reason := "abscission of the applier", challenges := [],
                quality_tags := [], metadata := ["applier", "receiver", "interceptor"] }
            match find_earliest_application cfg chart p window_days [route.applier] with
            | some nxt =>
              if |nxt.timing - app.timing| ≤ EPS ∧ nxt.target = route.receiver then []
              else [ev]
            | none => [ev])

/-- Source `_detect_frustration_events`. -/
def detect_frustration_events (cfg : HoraryConfig) (chart : HoraryChart)
    (querent quesited : Planet) (window_days : ℚ) : List PerfectionEvent :=
  match current_direct_route cfg chart querent quesited window_days with
  | none => []
  | some route =>
    match find_earliest_application cfg chart route.applier window_days [] with
    | none => []
    | some nxt =>
      if nxt.target = route.receiver ∨ route.timing - EPS ≤ nxt.timing then []
      else
        let ev : PerfectionEvent :=
          { event_type := EventType.FRUSTRATION,
            primary_pair := (querent, quesited), mediator := some nxt.target,
            aspect := some nxt.aspect, reception_data := none,
            exact_in_days := some nxt.timing, favorable := false,
            confidence := some cfg.confidence_frustration,
            reason := "frustration by the applier", challenges := [],
            quality_tags := [], metadata := ["applier", "receiver"] }
        match find_applying_aspect cfg chart nxt.target route.receiver window_days with
        | some chain =>
          if 0 < chain.timing ∧ chain.timing ≤ nxt.timing + EPS then []
          else [ev]
        | none => [ev]

/-- Source `_detect_denial_events` = refranation sweep over the five aspects, then
abscission and frustration. -/
def detect_denial_events (cfg : HoraryConfig) (chart : HoraryChart)
    (querent quesited : Planet) (window_days : ℚ) :
    Except String (List PerfectionEvent) :=
  match collectExcept (refranation_for_aspect cfg chart querent quesited)
      aspect_scan_order with
  | .error e => .error e
  | .ok refr =>
    .ok (refr ++ detect_abscission_events cfg chart querent quesited window_days ++
      detect_frustration_events cfg chart querent quesited window_days)

/-- Replace the first event in `acc` sharing `ev`'s key by `ev` when `ev`
carries strictly more metadata entries. -/
def replace_if_richer : List PerfectionEvent → PerfectionEvent → List PerfectionEvent
  | [], _ => []
  | e :: rest, ev =>
    if e.event_key = ev.event_key then
      (if e.metadata.length < ev.metadata.length then ev else e) :: rest
    else e :: replace_if_richer rest ev

/-- Worker of `_deduplicate_events`; `acc` is `unique_events`.  The Python
`seen_keys` set always equals the key set of `acc` (replacement preserves
keys), so the seen test is expressed on `acc` directly. -/
def dedup_go : List PerfectionEvent → List PerfectionEvent → List PerfectionEvent
  | [], acc => acc
  | ev :: rest, acc =>
    if acc.any (fun e => decide (e.event_key = ev.event_key)) then
      dedup_go rest (replace_if_richer acc ev)
    else dedup_go rest (acc ++ [ev])

/-- Source `_deduplicate_events`. -/
def deduplicate_events (events : List PerfectionEvent) : List PerfectionEvent :=
  dedup_go events []

/-- The positive event families. -/
def positive_types : List EventType :=
  [.DIRECT, .DIRECT_PENALIZED, .TRANSLATION, .COLLECTION]

/-- The denial/prohibition families suppressed by `_deconflict_same_time`. -/
def denial_like_types : List EventType :=
  [.PROHIBITION, .ABSCISSION, .REFRANATION, .FRUSTRATION]

/-- Source `_deconflict_same_time`: drop denial-family events coinciding (within
`eps`) with a positive event.  The `(p.exact_in_days or 0)` read coincides
with `getD 0` (both `None` and `0.0` give `0`). -/
def deconflict_same_time (events : List PerfectionEvent) (eps : ℚ) :
    List PerfectionEvent :=
  let positives := events.filter (fun e =>
    decide (e.event_type ∈ positive_types) && e.exact_in_days.isSome)
  events.filter (fun e =>
    if e.event_type ∈ denial_like_types then
      match e.exact_in_days with
      | none => true
      | some t => !(positives.any (fun p => decide (|p.exact_in_days.getD 0 - t| ≤ eps)))
    else true)

/-- Python `event.exact_in_days or float('inf')`: `None` **and `0.0`** both
map to `+∞` — modelled as `none` in an `Option ℚ` ordered with `none`
greatest. -/
def timing_or_inf : Option ℚ → Option ℚ
  | none => none
  | some x => if x = 0 then none else some x

/-- The fixed family-priority table of `_sort_events_by_priority`. -/
def type_priority : EventType → Nat
  | .DIRECT => 0
  | .DIRECT_PENALIZED => 1
  | .TRANSLATION => 2
  | .COLLECTION => 3
  | .PROHIBITION => 4
  | .COMBUSTION_VETO => 5
  | .HOUSE_PLACEMENT => 6
  | .REFRANATION => 7
  | .FRUSTRATION => 8
  | .ABSCISSION => 9

/-- Sort key `(timing-or-inf, family priority, challenge count)`. -/
abbrev SortKey := Option ℚ × Nat × Nat

/-- Source `sort_key(event)`. -/
def sort_key (e : PerfectionEvent) : SortKey :=
  (timing_or_inf e.exact_in_days, type_priority e.event_type, e.challenges.length)

/-- Order on the timing component (`none` = `+∞` sorts greatest). -/
def optLt : Option ℚ → Option ℚ → Bool
  | some x, some y => decide (x < y)
  | some _, none => true
  | none, _ => false

/-- Strict lexicographic comparison of sort keys. -/
def sort_key_lt (a b : SortKey) : Bool :=
  optLt a.1 b.1 ||
    (decide (a.1 = b.1) &&
      (decide (a.2.1 < b.2.1) || (decide (a.2.1 = b.2.1) && decide (a.2.2 < b.2.2))))

/-- Stable insertion of `x` before the first element whose key is not
strictly below `x`'s. -/
def insert_sorted (x : PerfectionEvent) : List PerfectionEvent → List PerfectionEvent
  | [] => [x]
  | y :: ys =>
    if sort_key_lt (sort_key y) (sort_key x) then y :: insert_sorted x ys
    else x :: y :: ys

/-- Source `_sort_events_by_priority` (Python `sorted` is a stable ascending sort by
`sort_key`; modelled as stable insertion sort). -/
def sort_events_by_priority (events : List PerfectionEvent) : List PerfectionEvent :=
  events.foldr insert_sorted []

/-- The identity/direct event emitted in the same-ruler case. -/
def identity_event (cfg : HoraryConfig) (querent quesited : Planet) : PerfectionEvent :=
  { event_type := EventType.DIRECT, primary_pair := (querent, quesited),
    mediator := none, aspect := some Aspect.CONJUNCTION, reception_data := none,
    exact_in_days := some 0, favorable := true,
    confidence := some cfg.confidence_same_ruler, reason := "same ruler",
    challenges := [], quality_tags := [], metadata := [] }

/-- Source `EventDetector.detect_all_events`. -/
def detect_all_events (cfg : HoraryConfig) (rec : RecOracle) (chart : HoraryChart)
    (querent quesited : Planet) (window_days : ℚ) :
    Except String (List PerfectionEvent) :=
  if querent = quesited then
    .ok (sort_events_by_priority (deduplicate_events
      (detect_house_placement_events chart querent quesited ++
        [identity_event cfg querent quesited])))
  else
    match detect_direct_events cfg rec chart querent quesited window_days with
    | .error e => .error e
    | .ok direct =>
    match detect_collection_events cfg rec chart querent quesited window_days with
    | .error e => .error e
    | .ok collection =>
    match detect_denial_events cfg chart querent quesited window_days with
    | .error e => .error e
    | .ok denial =>
      let house := detect_house_placement_events chart querent quesited
      let translation := detect_translation_events cfg rec chart querent quesited window_days
      let events0 := direct ++ house ++ translation ++ collection
      let earliest_positive_time := (events0.filterMap (fun e =>
        if e.event_type ∈ positive_types then e.exact_in_days else none)).min?
      let prohibition := detect_prohibition_events cfg chart querent quesited
        window_days earliest_positive_time
      .ok (sort_events_by_priority (deconflict_same_time
        (deduplicate_events (events0 ++ prohibition ++ denial)) EPS))

/-- The denial families as partitioned by the chooser. -/
def denial_types : List EventType := [.REFRANATION, .FRUSTRATION, .ABSCISSION]

/-- The chooser's per-bucket minimisation key
`(e.exact_in_days is None, e.exact_in_days or float('inf'))`. -/
def chooser_key (e : PerfectionEvent) : Bool × Option ℚ :=
  (e.exact_in_days.isNone, timing_or_inf e.exact_in_days)

/-- Lexicographic strict order on chooser keys (`False < True`;
`+∞ < +∞` is false). -/
def chooser_key_lt (a b : Bool × Option ℚ) : Bool :=
  (!a.1 && b.1) || (decide (a.1 = b.1) && optLt a.2 b.2)

/-- Python `min(events, key=chooser_key, default=None)` (first minimiser
wins). -/
def py_min_by : List PerfectionEvent → Option PerfectionEvent
  | [] => none
  | x :: xs =>
    some (xs.foldl (fun b e => if chooser_key_lt (chooser_key e) (chooser_key b) then e else b) x)

/-- Source `PerfectionChooser.select_primary_perfection`. -/
def select_primary_perfection (events : List PerfectionEvent) :
    Option PerfectionEvent :=
  match events with
  | [] => none
  | _ =>
    let positives := events.filter (fun e => decide (e.event_type ∈ positive_types))
    let prohibitions := events.filter (fun e => decide (e.event_type = EventType.PROHIBITION))
    let denials := events.filter (fun e => decide (e.event_type ∈ denial_types))
    let earliest_pos := py_min_by positives
    let earliest_proh := py_min_by prohibitions
    let earliest_den := py_min_by denials
    let preempt :=
      match earliest_proh, earliest_pos with
      | some _, none => true
      | some proh, some pos =>
        optLt (timing_or_inf proh.exact_in_days) (timing_or_inf pos.exact_in_days)
      | none, _ => false
    if preempt then earliest_proh
    else
      match earliest_pos with
      | some pos => some pos
      | none =>
        match earliest_den with
        | some den => some den
        | none => py_min_by events

/-- Source `PerfectionChooser.select_secondary_perfection`.  The
`(event.exact_in_days or 0)` reads coincide with `getD 0`. -/
def select_secondary_perfection (events : List PerfectionEvent)
    (primary : PerfectionEvent) : Option PerfectionEvent :=
  let remaining := events.filter (fun e => decide (e ≠ primary))
  remaining.findSome? (fun event =>
    let d := |event.exact_in_days.getD 0 - primary.exact_in_days.getD 0|
    if d ≤ EPS then none
    else if event.event_type ≠ primary.event_type ∨ 3 < d then some event
    else none)

/-- The consumer-facing payload of `find_perfections`, projected to its
event content (the narrative timeline/metadata rendering copies these
fields verbatim and is omitted). -/
structure PerfectionResult where
  events : List PerfectionEvent
  primary : Option PerfectionEvent
  secondary : Option PerfectionEvent
deriving DecidableEq, Repr

/-- Source `PerfectionCoreAPI.find_perfections`.  The best-effort reception
precompute only warms the cache and has no observable effect for a
deterministic oracle. -/
def find_perfections (cfg : HoraryConfig) (rec : RecOracle) (chart : HoraryChart)
    (querent quesited : Planet) (window_days : ℚ) :
    Except String PerfectionResult :=
  match detect_all_events cfg rec chart querent quesited window_days with
  | .error e => .error e
  | .ok all_events =>
    let primary := select_primary_perfection all_events
    let secondary :=
      match primary with
      | some p => select_secondary_perfection all_events p
      | none => none
    .ok ⟨all_events, primary, secondary⟩

/-- The documented configuration defaults (source `getattr` fallbacks and
spec §3/§6; confidence bases are representative values from the external
config, which no claim depends on). -/
def default_config : HoraryConfig :=
  { allow_out_of_sign_hits := false
    perfection_allow_out_of_sign := false
    perfection_require_in_sign := true
    translation_require_speed_advantage := true
    translation_max_lookback_days := 7
    confidence_same_ruler := 80
    confidence_direct_basic := 70
    hard_square_penalty := 15
    hard_opposition_penalty := 20
    mutual_rulership_bonus := 15
    mutual_exaltation_bonus := 10
    confidence_translation_of_light := 75
    confidence_collection_of_light := 70
    confidence_refranation := 60
    confidence_abscission := 70
    confidence_frustration := 65 }

/-- A reception oracle reporting no reception anywhere. -/
def no_reception : RecOracle := fun _ _ => ⟨some "none", none, []⟩

/-- Chart for the forward-only witness: Sun and Moon both at 0° with zero
motion (already exact conjunction). -/
def chart_c2 : HoraryChart :=
  { planets := fun p =>
      match p with
      | .SUN => some ⟨0, some 0, none, none, false⟩
      | .MOON => some ⟨0, some 0, none, none, false⟩
      | _ => none
    significators := none }

/-- A positive DIRECT event with timing exactly `0.0` (an immediate
perfection). -/
def ev_direct_t0 : PerfectionEvent :=
  { event_type := EventType.DIRECT, primary_pair := (.SUN, .MOON), mediator := none,
    aspect := some Aspect.CONJUNCTION, reception_data := none,
    exact_in_days := some 0, favorable := true, confidence := some 80,
    reason := "conjunction now", challenges := [], quality_tags := [], metadata := [] }

/-- A prohibition at 5 days. -/
def ev_proh_t5 : PerfectionEvent :=
  { event_type := EventType.PROHIBITION, primary_pair := (.SUN, .MOON),
    mediator := some Planet.MARS, aspect := some Aspect.SQUARE,
    reception_data := none, exact_in_days := some 5, favorable := false,
    confidence := none, reason := "prohibition", challenges := [],
    quality_tags := [], metadata := ["target", "preempts_in_days"] }

/-- A prohibition with determinate timing `0.0`. -/
def ev_proh_t0 : PerfectionEvent :=
  { event_type := EventType.PROHIBITION, primary_pair := (.SUN, .MOON),
    mediator := some Planet.MARS, aspect := some Aspect.SQUARE,
    reception_data := none, exact_in_days := some 0, favorable := false,
    confidence := none, reason := "prohibition", challenges := [],
    quality_tags := [], metadata := ["target", "preempts_in_days"] }

/-- A DIRECT event with indeterminate timing. -/
def ev_direct_tnone : PerfectionEvent :=
  { event_type := EventType.DIRECT, primary_pair := (.SUN, .MOON), mediator := none,
    aspect := some Aspect.TRINE, reception_data := none, exact_in_days := none,
    favorable := true, confidence := some 70, reason := "direct",
    challenges := [], quality_tags := [], metadata := [] }

/-- Event with indeterminate timing for the C10 witness. -/
def ev_c10_none : PerfectionEvent :=
  { event_type := EventType.TRANSLATION, primary_pair := (.SUN, .MOON),
    mediator := some Planet.MERCURY, aspect := none, reception_data := none,
    exact_in_days := none, favorable := true, confidence := some 75,
    reason := "a", challenges := [], quality_tags := [], metadata := [] }

/-- Same event but with timing exactly `0.0`. -/
def ev_c10_zero : PerfectionEvent :=
  { event_type := EventType.TRANSLATION, primary_pair := (.SUN, .MOON),
    mediator := some Planet.MERCURY, aspect := none, reception_data := none,
    exact_in_days := some 0, favorable := true, confidence := some 75,
    reason := "b", challenges := [], quality_tags := [], metadata := [] }

/-- Two same-key events with metadata sizes 1 and 2 for the C8 witness. -/
def ev_c8_small : PerfectionEvent :=
  { event_type := EventType.COLLECTION, primary_pair := (.SUN, .MOON),
    mediator := some Planet.SATURN, aspect := none, reception_data := none,
    exact_in_days := none, favorable := true, confidence := some 70,
    reason := "a", challenges := [], quality_tags := [], metadata := ["m1"] }

def ev_c8_big : PerfectionEvent :=
  { event_type := EventType.COLLECTION, primary_pair := (.SUN, .MOON),
    mediator := some Planet.SATURN, aspect := none, reception_data := none,
    exact_in_days := none, favorable := true, confidence := some 70,
    reason := "b", challenges := [], quality_tags := [],
    metadata := ["m1", "m2"] }

/-- All-bodies chart for the C5 witness: every planet present and
motionless except a fast Mercury. -/
def chart_c5 : HoraryChart :=
  { planets := fun p =>
      match p with
      | .SUN => some ⟨0, some 0, none, none, false⟩
      | .MOON => some ⟨40, some 0, none, none, false⟩
      | .MERCURY => some ⟨80, some 1, none, none, false⟩
      | .VENUS => some ⟨120, some 0, none, none, false⟩
      | .MARS => some ⟨160, some 0, none, none, false⟩
      | .JUPITER => some ⟨200, some 0, none, none, false⟩
      | .SATURN => some ⟨240, some 0, none, none, false⟩
    significators := none }

/-- Empty chart (no positions, no significator mapping). -/
def chart_empty : HoraryChart :=
  { planets := fun _ => none
    significators := none }

/-- Chart for the sign-exit witness: a motionless Sun at 0° and a Moon at
29° moving 1°/day; the conjunction would next perfect in 331 days, long
after the Moon leaves its sign (1 day). -/
def chart_c3 : HoraryChart :=
  { planets := fun p =>
      match p with
      | .SUN => some ⟨0, none, some 0, none, false⟩
      | .MOON => some ⟨29, none, some 1, none, false⟩
      | _ => none
    significators := none }

/-- Chart with only the two significators present (Sun 0°, Moon 40°, both
motionless); Mercury through Saturn are absent. -/
def chart_c9 : HoraryChart :=
  { planets := fun p =>
      match p with
      | .SUN => some ⟨0, some 0, none, none, false⟩
      | .MOON => some ⟨40, some 0, none, none, false⟩
      | _ => none
    significators := none }

/-- Chart for the translation degree-limit test: Sun 0° and Mars 100°
motionless; the Moon at 11° moves 13°/day — it separated from its Sun
conjunction 11/13 days ago (11° past exact, beyond the 10° separation
degree limit the spec and the repository's tests configure) and next
applies a sextile to Mars in 29/13 days. -/
def chart_c7 : HoraryChart :=
  { planets := fun p =>
      match p with
      | .SUN => some ⟨0, some 0, none, none, false⟩
      | .MARS => some ⟨100, some 0, none, none, false⟩
      | .MOON => some ⟨11, some 13, none, none, false⟩
      | _ => none
    significators := none }

theorem ratFloor_eq (q : ℚ) : ratFloor q = ⌊q⌋ := Rat.floor_def.symm

theorem forward_t_pos (delta v : ℚ) (hv : v ≠ 0) : 0 < forward_t delta v := by
  have hva : (0:ℚ) < |v| := abs_pos.mpr hv
  have hper : (0:ℚ) < 360 / |v| := by positivity
  unfold forward_t
  by_cases h : -delta / v ≤ 0
  · simp only [if_pos h, ratFloor_eq]
    have h1 : -(-delta / v) / (360 / |v|) < (⌊-(-delta / v) / (360 / |v|)⌋ : ℚ) + 1 :=
      Int.lt_floor_add_one _
    have h2 := (div_lt_iff₀ hper).mp h1
    push_cast
    nlinarith [h2]
  · rw [if_neg h]
    linarith [not_le.mp h]

/-- C2: for every chart, pair of bodies and aspect, `when_exact_in_days`
returns either indeterminate (`none`) or a value `≥ 0` (forward-only
invariant). -/
theorem when_exact_forward_only (cfg : HoraryConfig) (chart : HoraryChart)
    (planet_a planet_b : Planet) (aspect : Aspect) (t : ℚ)
    (h : when_exact_in_days cfg chart planet_a planet_b aspect = some t) :
    0 ≤ t := by
  rcases h1 : chart.planets planet_a with _ | pos_a <;>
    rcases h2 : chart.planets planet_b with _ | pos_b <;>
    simp only [when_exact_in_days, h1, h2] at h
  · exact Option.noConfusion h
  · exact Option.noConfusion h
  · exact Option.noConfusion h
  by_cases hv : |get_daily_motion (some pos_b) - get_daily_motion (some pos_a)| <
      1/1000000
  · rw [if_pos hv] at h
    by_cases hd : |aspectDelta pos_a.longitude pos_b.longitude aspect| < 1/1000
    · rw [if_pos hd] at h
      injection h with h'
      exact le_of_eq h'
    · rw [if_neg hd] at h
      exact Option.noConfusion h
  · rw [if_neg hv] at h
    have hvne : get_daily_motion (some pos_b) - get_daily_motion (some pos_a) ≠ 0 := by
      intro h0
      rw [h0] at hv
      norm_num at hv
    by_cases hg : (enforce_sign_guard cfg && sign_exit_blocks pos_a pos_b
        (forward_t (aspectDelta pos_a.longitude pos_b.longitude aspect)
          (get_daily_motion (some pos_b) - get_daily_motion (some pos_a)))) = true
    · rw [if_pos hg] at h
      exact Option.noConfusion h
    · rw [if_neg hg] at h
      injection h with h'
      exact le_of_lt (h' ▸ forward_t_pos _ _ hvne)

theorem when_exact_forward_only_witness :
    when_exact_in_days default_config chart_c2 .SUN .MOON .CONJUNCTION = some 0 ∧
      (0:ℚ) ≤ 0 := by
  have heval : when_exact_in_days default_config chart_c2 .SUN .MOON .CONJUNCTION =
      some 0 := by
    norm_num [when_exact_in_days, chart_c2, aspectDelta, aspect_targets, Aspect.degrees,
      minByAbs, norm180, pymod, ratFloor_eq, get_daily_motion]
  exact ⟨heval, when_exact_forward_only default_config chart_c2 .SUN .MOON
    .CONJUNCTION 0 heval⟩

/-- C1 (failing evaluation): with a positive event at timing `0.0` and a
prohibition at timing `5.0`, `select_primary_perfection` selects the
**prohibition**, although `5.0 < 0.0` is false — the claim's "prohibition is
primary iff strictly earlier than the earliest positive" fails.  Root cause:
`e.exact_in_days or float('inf')` treats the `0.0` timing as `+∞`, contrary
to the docstring "only pre-empts if it occurs *earlier* than any positive
route". -/
theorem select_primary_truthy_zero :
    select_primary_perfection [ev_direct_t0, ev_proh_t5] = some ev_proh_t5 ∧
      ev_direct_t0.exact_in_days = some 0 ∧ ev_proh_t5.exact_in_days = some 5 ∧
      ¬ ((5:ℚ) < 0) := by
  refine ⟨?_, rfl, rfl, by norm_num⟩
  decide

/-- C4 (failing evaluation): a PROHIBITION with **determinate timing 0.0**
sorts *after* a DIRECT event with **indeterminate** timing, because the sort
key `event.exact_in_days or float('inf')` maps a `0.0` timing to `+∞` (same
as `None`), after which the family-priority tiebreak places DIRECT first.
This refutes "an event with determinate timing (including timing 0) sorts
before every event with indeterminate timing". -/
theorem sort_events_zero_timing :
    sort_events_by_priority [ev_proh_t0, ev_direct_tnone] =
        [ev_direct_tnone, ev_proh_t0] ∧
      ev_proh_t0.exact_in_days = some 0 ∧ ev_direct_tnone.exact_in_days = none := by
  refine ⟨?_, rfl, rfl⟩
  decide

/-- C10: `event_key` renders an absent timing and a timing of exactly `0.0`
identically, so two events agreeing on family, pair, mediator and aspect but
differing only in `none` vs `some 0` timing share a key and are collapsed to
one event by `_deduplicate_events`. -/
theorem event_key_zero_none_collapse (e1 e2 : PerfectionEvent)
    (hty : e1.event_type = e2.event_type)
    (hpair : e1.primary_pair = e2.primary_pair)
    (hmed : e1.mediator = e2.mediator) (hasp : e1.aspect = e2.aspect)
    (h1 : e1.exact_in_days = none) (h2 : e2.exact_in_days = some 0) :
    e1.event_key = e2.event_key ∧ (deduplicate_events [e1, e2]).length = 1 := by
  have hk : e1.event_key = e2.event_key := by
    simp [PerfectionEvent.event_key, hty, hpair, hmed, hasp, h1, h2, timingKey]
  refine ⟨hk, ?_⟩
  simp [deduplicate_events, dedup_go, replace_if_richer, hk]

theorem event_key_zero_none_collapse_witness :
    ev_c10_none.event_key = ev_c10_zero.event_key ∧
      (deduplicate_events [ev_c10_none, ev_c10_zero]).length = 1 :=
  event_key_zero_none_collapse ev_c10_none ev_c10_zero rfl rfl rfl rfl rfl rfl

theorem filter_replace_of_q (Q : EventKey → Bool) (acc : List PerfectionEvent)
    (ev : PerfectionEvent) (hq : Q ev.event_key = true) :
    (replace_if_richer acc ev).filter (fun e => Q e.event_key) =
      replace_if_richer (acc.filter (fun e => Q e.event_key)) ev := by
  induction acc with
  | nil => simp [replace_if_richer]
  | cons e rest ih =>
    by_cases hk : e.event_key = ev.event_key
    · have hQe : Q e.event_key = true := by rw [hk]; exact hq
      by_cases hr : e.metadata.length < ev.metadata.length
      · simp [replace_if_richer, hk, hr, List.filter_cons, hQe, hq]
      · simp [replace_if_richer, hk, hr, List.filter_cons, hQe, hq]
    · by_cases hQe : Q e.event_key = true
      · simp [replace_if_richer, hk, List.filter_cons, hQe, ih]
      · simp [replace_if_richer, hk, List.filter_cons, hQe, ih]

theorem filter_replace_of_not_q (Q : EventKey → Bool) (acc : List PerfectionEvent)
    (ev : PerfectionEvent) (hq : Q ev.event_key = false) :
    (replace_if_richer acc ev).filter (fun e => Q e.event_key) =
      acc.filter (fun e => Q e.event_key) := by
  induction acc with
  | nil => simp [replace_if_richer]
  | cons e rest ih =>
    by_cases hk : e.event_key = ev.event_key
    · have hQe : Q e.event_key = false := by rw [hk]; exact hq
      by_cases hr : e.metadata.length < ev.metadata.length
      · simp [replace_if_richer, hk, hr, List.filter_cons, hQe, hq]
      · simp [replace_if_richer, hk, hr, List.filter_cons, hQe, hq]
    · by_cases hQe : Q e.event_key = true
      · simp [replace_if_richer, hk, List.filter_cons, hQe, ih]
      · simp [replace_if_richer, hk, List.filter_cons, hQe, ih]

theorem any_key_filter (Q : EventKey → Bool) (acc : List PerfectionEvent)
    (ev : PerfectionEvent) (hq : Q ev.event_key = true) :
    (acc.filter (fun e => Q e.event_key)).any
        (fun e => decide (e.event_key = ev.event_key)) =
      acc.any (fun e => decide (e.event_key = ev.event_key)) := by
  induction acc with
  | nil => simp
  | cons e rest ih =>
    by_cases hQe : Q e.event_key = true
    · simp [List.filter_cons, hQe, ih]
    · have hne : e.event_key ≠ ev.event_key := by
        intro hk
        rw [hk, hq] at hQe
        exact hQe rfl
      simp [List.filter_cons, hQe, hne, ih]

/-- Filtering by any key predicate commutes with the de-duplication worker:
deduplication acts key-classwise. -/
theorem filter_dedup_go (Q : EventKey → Bool) (l acc : List PerfectionEvent) :
    (dedup_go l acc).filter (fun e => Q e.event_key) =
      dedup_go (l.filter (fun e => Q e.event_key))
        (acc.filter (fun e => Q e.event_key)) := by
  induction l generalizing acc with
  | nil => simp [dedup_go]
  | cons ev rest ih =>
    by_cases hq : Q ev.event_key = true
    · rw [List.filter_cons_of_pos (by simpa using hq)]
      by_cases ha : acc.any (fun e => decide (e.event_key = ev.event_key)) = true
      · have ha' : (acc.filter (fun e => Q e.event_key)).any
            (fun e => decide (e.event_key = ev.event_key)) = true := by
          rw [any_key_filter Q acc ev hq]
          exact ha
        rw [dedup_go, if_pos ha, dedup_go, if_pos ha', ih,
          filter_replace_of_q Q acc ev hq]
      · have ha' : ¬ (acc.filter (fun e => Q e.event_key)).any
            (fun e => decide (e.event_key = ev.event_key)) = true := by
          rw [any_key_filter Q acc ev hq]
          exact ha
        rw [dedup_go, if_neg ha, dedup_go, if_neg ha', ih, List.filter_append]
        simp [hq]
    · rw [List.filter_cons_of_neg (by simpa using hq)]
      by_cases ha : acc.any (fun e => decide (e.event_key = ev.event_key)) = true
      · rw [dedup_go, if_pos ha, ih,
          filter_replace_of_not_q Q acc ev (by simpa using hq)]
      · rw [dedup_go, if_neg ha, ih, List.filter_append]
        simp [hq]

/-- Filtering by a key predicate commutes with `_deduplicate_events`. -/
theorem filter_deduplicate (Q : EventKey → Bool) (l : List PerfectionEvent) :
    (deduplicate_events l).filter (fun e => Q e.event_key) =
      deduplicate_events (l.filter (fun e => Q e.event_key)) := by
  unfold deduplicate_events
  rw [filter_dedup_go]
  simp

/-- C8: if the events of `l` carrying key `k` are exactly two with different
metadata sizes, the deduplicated list contains exactly one event with that
key — the one with more metadata entries. -/
theorem dedup_prefers_richer_metadata (l : List PerfectionEvent) (k : EventKey)
    (e1 e2 : PerfectionEvent)
    (hf : l.filter (fun e => decide (e.event_key = k)) = [e1, e2])
    (hm : e1.metadata.length ≠ e2.metadata.length) :
    (deduplicate_events l).filter (fun e => decide (e.event_key = k)) =
      [if e1.metadata.length < e2.metadata.length then e2 else e1] := by
  have h1 : e1.event_key = k := by
    have : e1 ∈ l.filter (fun e => decide (e.event_key = k)) := by
      rw [hf]
      exact List.mem_cons_self _ _
    simpa using (List.mem_filter.mp this).2
  have h2 : e2.event_key = k := by
    have : e2 ∈ l.filter (fun e => decide (e.event_key = k)) := by
      rw [hf]
      exact List.mem_cons_of_mem _ (List.mem_cons_self _ _)
    simpa using (List.mem_filter.mp this).2
  rw [filter_deduplicate (fun key => decide (key = k)) l, hf]
  have h12 : e1.event_key = e2.event_key := by rw [h1, h2]
  simp only [deduplicate_events, dedup_go, List.any_nil, List.any_cons,
    List.any_nil, Bool.or_false, h12, decide_True, if_true, List.nil_append,
    replace_if_richer, if_pos rfl]
  by_cases hr : e1.metadata.length < e2.metadata.length
  · simp [hr, dedup_go]
  · simp [hr, dedup_go]

theorem dedup_prefers_richer_metadata_witness :
    (deduplicate_events [ev_c8_small, ev_c8_big]).filter
        (fun e => decide (e.event_key = ev_c8_small.event_key)) = [ev_c8_big] := by
  have h := dedup_prefers_richer_metadata [ev_c8_small, ev_c8_big]
    ev_c8_small.event_key ev_c8_small ev_c8_big (by decide) (by decide)
  simpa using h

theorem mem_collectExcept {α : Type} {f : α → Except String (List PerfectionEvent)}
    {ps : List α} {evs : List PerfectionEvent}
    (h : collectExcept f ps = .ok evs) {ev : PerfectionEvent} (hm : ev ∈ evs) :
    ∃ p ∈ ps, ∃ l, f p = .ok l ∧ ev ∈ l := by
  induction ps generalizing evs with
  | nil =>
    simp only [collectExcept] at h
    cases h
    simp at hm
  | cons p ps ih =>
    cases hf : f p with
    | error e =>
      simp only [collectExcept, hf] at h
      exact Except.noConfusion h
    | ok l =>
      cases hr : collectExcept f ps with
      | error e =>
        simp only [collectExcept, hf, hr] at h
        exact Except.noConfusion h
      | ok rest =>
        simp only [collectExcept, hf, hr, Except.ok.injEq] at h
        subst h
        rcases List.mem_append.mp hm with h1 | h1
        · exact ⟨p, List.mem_cons_self _ _, l, hf, h1⟩
        · obtain ⟨q, hq, l2, hfq, hml⟩ := ih hr h1
          exact ⟨q, List.mem_cons_of_mem _ hq, l2, hfq, hml⟩

/-- Any COLLECTION event produced by the per-collector body names that
collector as mediator and certifies the strict slower-than-both rate rule. -/
theorem collection_events_for_sound (cfg : HoraryConfig) (rec : RecOracle)
    (chart : HoraryChart) (querent quesited : Planet) (window_days : ℚ)
    (col : Planet) (l : List PerfectionEvent)
    (h : collection_events_for cfg rec chart querent quesited window_days col = .ok l)
    (ev : PerfectionEvent) (hm : ev ∈ l)
    (ht : ev.event_type = EventType.COLLECTION) :
    ev.mediator = some col ∧
      |get_daily_motion (chart.planets col)| <
        min |get_daily_motion (chart.planets querent)|
          |get_daily_motion (chart.planets quesited)| := by
  unfold collection_events_for at h
  split at h
  · cases h
    simp at hm
  · split at h
    · exact Except.noConfusion h
    · rename_i valid hvc
      cases valid with
      | false =>
        rw [if_pos (by simp)] at h
        cases h
        simp at hm
      | true =>
        have hrate : |get_daily_motion (chart.planets col)| <
            min |get_daily_motion (chart.planets querent)|
              |get_daily_motion (chart.planets quesited)| := by
          unfold is_valid_collector at hvc
          split at hvc
          · rename_i pos_c pos_1 pos_2 hc h1 h2
            rw [hc, h1, h2]
            have hd := Except.ok.inj hvc
            simpa using hd
          · exact Except.noConfusion hvc
        rw [if_neg (by simp)] at h
        cases hqa : find_applying_aspect cfg chart querent col window_days with
        | none =>
          simp only [hqa] at h
          cases h
          simp at hm
        | some querent_app =>
        cases hea : find_applying_aspect cfg chart quesited col window_days with
        | none =>
          simp only [hqa, hea] at h
          cases h
          simp at hm
        | some quesited_app =>
        simp only [hqa, hea] at h
        cases hfi : first_interceptor cfg chart [col, querent, quesited] col
            window_days (max querent_app.timing quesited_app.timing - EPS) with
        | some hit =>
          simp only [hfi] at h
          cases h
          simp only [List.mem_singleton] at hm
          subst hm
          simp at ht
        | none =>
        simp only [hfi] at h
        cases hqn : find_earliest_application cfg chart querent window_days [] with
        | none =>
          simp only [hqn] at h
          cases h
          simp at hm
        | some qa_next =>
        cases hen : find_earliest_application cfg chart quesited window_days [] with
        | none =>
          simp only [hqn, hen] at h
          cases h
          simp at hm
        | some qe_next =>
        simp only [hqn, hen] at h
        by_cases htar : qa_next.target = col ∧ qe_next.target = col
        · rw [if_pos htar] at h
          cases h
          simp only [List.mem_singleton] at hm
          subst hm
          exact ⟨rfl, hrate⟩
        · rw [if_neg htar] at h
          cases h
          simp at hm

/-- C5: a candidate collector whose absolute rate is not strictly below both
significators' rates yields no COLLECTION event naming it, whatever else
holds. -/
theorem collection_requires_slower_collector (cfg : HoraryConfig)
    (rec : RecOracle) (chart : HoraryChart) (querent quesited col : Planet)
    (window_days : ℚ) (evs : List PerfectionEvent)
    (hrate : ¬ |get_daily_motion (chart.planets col)| <
        min |get_daily_motion (chart.planets querent)|
          |get_daily_motion (chart.planets quesited)|)
    (hok : detect_collection_events cfg rec chart querent quesited window_days =
      .ok evs) :
    evs.countP (fun ev => decide (ev.event_type = EventType.COLLECTION ∧
      ev.mediator = some col)) = 0 := by
  rw [List.countP_eq_zero]
  intro ev hm hp
  simp only [decide_eq_true_eq] at hp
  obtain ⟨hty, hmed⟩ := hp
  unfold detect_collection_events at hok
  split at hok
  · cases hok
    simp at hm
  · obtain ⟨p, _, l, hfp, hml⟩ := mem_collectExcept hok hm
    obtain ⟨hmed', hrate'⟩ := collection_events_for_sound cfg rec chart querent
      quesited window_days p l hfp ev hml hty
    rw [hmed'] at hmed
    cases hmed
    exact hrate hrate'

theorem collection_requires_slower_collector_witness :
    (([] : List PerfectionEvent)).countP (fun ev =>
      decide (ev.event_type = EventType.COLLECTION ∧
        ev.mediator = some Planet.MERCURY)) = 0 := by
  refine collection_requires_slower_collector default_config no_reception chart_c5
    .SUN .MOON .MERCURY 30 [] ?_ ?_
  · norm_num [chart_c5, get_daily_motion]
  · norm_num [detect_collection_events, collectExcept, collection_events_for,
      classical_planets, is_valid_collector, chart_c5, get_daily_motion]

theorem house_placement_types (chart : HoraryChart) (querent quesited : Planet) :
    ∀ ev ∈ detect_house_placement_events chart querent quesited,
      ev.event_type = EventType.HOUSE_PLACEMENT := by
  intro ev h
  unfold detect_house_placement_events at h
  cases hs : chart.significators with
  | none => simp [hs] at h
  | some sigs =>
    simp only [hs] at h
    rcases List.mem_append.mp h with h1 | h1
    · cases hq : chart.planets querent with
      | none => simp [hq] at h1
      | some qp =>
        cases hh : qp.house with
        | none => simp [hq, hh] at h1
        | some hn =>
          by_cases he : hn = sigs.2
          · simp only [hq, hh, if_pos he, List.mem_singleton] at h1
            subst h1
            rfl
          · simp [hq, hh, he] at h1
    · cases hq : chart.planets quesited with
      | none => simp [hq] at h1
      | some qp =>
        cases hh : qp.house with
        | none => simp [hq, hh] at h1
        | some hn =>
          by_cases he : hn = sigs.1
          · simp only [hq, hh, if_pos he, List.mem_singleton] at h1
            subst h1
            rfl
          · simp [hq, hh, he] at h1

theorem insert_sorted_perm (x : PerfectionEvent) (l : List PerfectionEvent) :
    List.Perm (insert_sorted x l) (x :: l) := by
  induction l with
  | nil => exact List.Perm.refl _
  | cons y ys ih =>
    unfold insert_sorted
    by_cases hc : sort_key_lt (sort_key y) (sort_key x) = true
    · rw [if_pos hc]
      exact (ih.cons y).trans (List.Perm.swap x y ys)
    · rw [if_neg hc]

theorem sort_events_perm (l : List PerfectionEvent) :
    List.Perm (sort_events_by_priority l) l := by
  induction l with
  | nil => exact List.Perm.refl _
  | cons x xs ih =>
    have h1 : sort_events_by_priority (x :: xs) =
        insert_sorted x (sort_events_by_priority xs) := rfl
    rw [h1]
    exact (insert_sorted_perm _ _).trans (ih.cons x)

/-- C6: with `querent == quesited` the detector returns exactly one DIRECT
event — immediate (timing 0), a conjunction, favorable — and no TRANSLATION,
COLLECTION or PROHIBITION event appears (those detectors never run). -/
theorem identity_case_single_direct (cfg : HoraryConfig) (rec : RecOracle)
    (chart : HoraryChart) (p : Planet) (window_days : ℚ)
    (evs : List PerfectionEvent)
    (hok : detect_all_events cfg rec chart p p window_days = .ok evs) :
    evs.countP (fun e => decide (e.event_type = EventType.DIRECT)) = 1 ∧
      evs.countP (fun e => decide (e.event_type = EventType.TRANSLATION ∨
        e.event_type = EventType.COLLECTION ∨
        e.event_type = EventType.PROHIBITION)) = 0 ∧
      ∀ e ∈ evs, e.event_type = EventType.DIRECT →
        e.exact_in_days = some 0 ∧ e.aspect = some Aspect.CONJUNCTION ∧
          e.favorable = true := by
  have hbranch : evs = sort_events_by_priority (deduplicate_events
      (detect_house_placement_events chart p p ++ [identity_event cfg p p])) := by
    unfold detect_all_events at hok
    rw [if_pos rfl] at hok
    exact (Except.ok.inj hok).symm
  set L0 := detect_house_placement_events chart p p ++ [identity_event cfg p p]
    with hL0
  have hperm : List.Perm evs (deduplicate_events L0) := hbranch ▸ sort_events_perm _
  have hfilter_direct : L0.filter
      (fun e => decide (e.event_key.1 = EventType.DIRECT)) =
        [identity_event cfg p p] := by
    rw [hL0, List.filter_append]
    have h1 : (detect_house_placement_events chart p p).filter
        (fun e => decide (e.event_key.1 = EventType.DIRECT)) = [] := by
      rw [List.filter_eq_nil_iff]
      intro ev hev
      have := house_placement_types chart p p ev hev
      simp [PerfectionEvent.event_key, this]
    rw [h1]
    simp [PerfectionEvent.event_key, identity_event]
  have hdedup_direct : (deduplicate_events L0).filter
      (fun e => decide (e.event_key.1 = EventType.DIRECT)) =
        [identity_event cfg p p] := by
    rw [filter_deduplicate (fun key => decide (key.1 = EventType.DIRECT)) L0,
      hfilter_direct]
    simp [deduplicate_events, dedup_go]
  have hkey_ty : ∀ e : PerfectionEvent, e.event_key.1 = e.event_type := by
    intro e
    rfl
  refine ⟨?_, ?_, ?_⟩
  · rw [hperm.countP_eq]
    rw [List.countP_eq_length_filter]
    have hcongr : (deduplicate_events L0).filter
        (fun e => decide (e.event_type = EventType.DIRECT)) =
          (deduplicate_events L0).filter
            (fun e => decide (e.event_key.1 = EventType.DIRECT)) := by
      apply List.filter_congr
      intro e _
      rw [hkey_ty]
    rw [hcongr, hdedup_direct]
    rfl
  · rw [hperm.countP_eq]
    rw [List.countP_eq_length_filter]
    have hfilter_tcp : (deduplicate_events L0).filter
        (fun e => decide (e.event_key.1 = EventType.TRANSLATION ∨
          e.event_key.1 = EventType.COLLECTION ∨
          e.event_key.1 = EventType.PROHIBITION)) = [] := by
      rw [filter_deduplicate (fun key => decide (key.1 = EventType.TRANSLATION ∨
        key.1 = EventType.COLLECTION ∨ key.1 = EventType.PROHIBITION)) L0]
      have h0 : L0.filter (fun e => decide (e.event_key.1 = EventType.TRANSLATION ∨
          e.event_key.1 = EventType.COLLECTION ∨
          e.event_key.1 = EventType.PROHIBITION)) = [] := by
        rw [hL0, List.filter_append, List.filter_eq_nil_iff.mpr, List.filter_eq_nil_iff.mpr]
        · simp
        · intro ev hev
          simp only [List.mem_singleton] at hev
          subst hev
          simp [identity_event, PerfectionEvent.event_key]
        · intro ev hev
          have := house_placement_types chart p p ev hev
          simp [PerfectionEvent.event_key, this]
      rw [h0]
      simp [deduplicate_events, dedup_go]
    have hcongr : (deduplicate_events L0).filter
        (fun e => decide (e.event_type = EventType.TRANSLATION ∨
          e.event_type = EventType.COLLECTION ∨
          e.event_type = EventType.PROHIBITION)) =
        (deduplicate_events L0).filter
          (fun e => decide (e.event_key.1 = EventType.TRANSLATION ∨
            e.event_key.1 = EventType.COLLECTION ∨
            e.event_key.1 = EventType.PROHIBITION)) := by
      apply List.filter_congr
      intro e _
      rw [hkey_ty]
    rw [hcongr, hfilter_tcp]
    rfl
  · intro e he hty
    have hmem : e ∈ deduplicate_events L0 := hperm.mem_iff.mp he
    have : e ∈ (deduplicate_events L0).filter
        (fun e => decide (e.event_key.1 = EventType.DIRECT)) := by
      rw [List.mem_filter]
      exact ⟨hmem, by simp [hkey_ty, hty]⟩
    rw [hdedup_direct] at this
    simp only [List.mem_singleton] at this
    subst this
    exact ⟨rfl, rfl, rfl⟩

theorem identity_case_single_direct_witness :
    [identity_event default_config .SUN .SUN].countP
        (fun e => decide (e.event_type = EventType.DIRECT)) = 1 ∧
      [identity_event default_config .SUN .SUN].countP
        (fun e => decide (e.event_type = EventType.TRANSLATION ∨
          e.event_type = EventType.COLLECTION ∨
          e.event_type = EventType.PROHIBITION)) = 0 ∧
      ∀ e ∈ [identity_event default_config .SUN .SUN],
        e.event_type = EventType.DIRECT →
          e.exact_in_days = some 0 ∧ e.aspect = some Aspect.CONJUNCTION ∧
            e.favorable = true := by
  refine identity_case_single_direct default_config no_reception chart_empty
    .SUN 30 [identity_event default_config .SUN .SUN] ?_
  norm_num [detect_all_events, detect_house_placement_events, chart_empty,
    deduplicate_events, dedup_go, sort_events_by_priority, insert_sorted]

/-- C3: when the configuration enforces the sign-exit guard and the solved
forward time exceeds either body's days-to-sign-exit, `when_exact_in_days`
returns indeterminate. -/
theorem when_exact_sign_exit_guard (cfg : HoraryConfig) (chart : HoraryChart)
    (planet_a planet_b : Planet) (aspect : Aspect)
    (pos_a pos_b : PlanetPosition)
    (ha : chart.planets planet_a = some pos_a)
    (hb : chart.planets planet_b = some pos_b)
    (hg : enforce_sign_guard cfg = true)
    (hv : ¬ |get_daily_motion (some pos_b) - get_daily_motion (some pos_a)| <
      1/1000000)
    (hex : (∃ days_a, days_to_sign_exit pos_a.longitude (pos_a.speed.getD 0) =
        some days_a ∧ days_a < forward_t
          (aspectDelta pos_a.longitude pos_b.longitude aspect)
          (get_daily_motion (some pos_b) - get_daily_motion (some pos_a))) ∨
      (∃ days_b, days_to_sign_exit pos_b.longitude (pos_b.speed.getD 0) =
        some days_b ∧ days_b < forward_t
          (aspectDelta pos_a.longitude pos_b.longitude aspect)
          (get_daily_motion (some pos_b) - get_daily_motion (some pos_a)))) :
    when_exact_in_days cfg chart planet_a planet_b aspect = none := by
  have hblock : sign_exit_blocks pos_a pos_b
      (forward_t (aspectDelta pos_a.longitude pos_b.longitude aspect)
        (get_daily_motion (some pos_b) - get_daily_motion (some pos_a))) = true := by
    unfold sign_exit_blocks
    rcases hex with ⟨da, hda, hlt⟩ | ⟨db, hdb, hlt⟩
    · rw [hda]
      simp [hlt]
    · rw [hdb]
      simp [hlt]
  simp only [when_exact_in_days, ha, hb]
  rw [if_neg hv, if_pos (by rw [hg, hblock]; rfl)]

theorem when_exact_sign_exit_guard_witness :
    when_exact_in_days default_config chart_c3 .SUN .MOON .CONJUNCTION = none := by
  refine when_exact_sign_exit_guard default_config chart_c3 .SUN .MOON .CONJUNCTION
    ⟨0, none, some 0, none, false⟩ ⟨29, none, some 1, none, false⟩ rfl rfl rfl ?_ ?_
  · norm_num [get_daily_motion]
  · refine Or.inr ⟨1, ?_, ?_⟩
    · norm_num [days_to_sign_exit, pymod, ratFloor_eq]
    · norm_num [forward_t, aspectDelta, aspect_targets, Aspect.degrees, minByAbs,
        norm180, pymod, ratFloor_eq, get_daily_motion]

theorem find_perfections_propagates (cfg : HoraryConfig) (rec : RecOracle)
    (chart : HoraryChart) (querent quesited : Planet) (window_days : ℚ)
    (e : String)
    (h : detect_all_events cfg rec chart querent quesited window_days = .error e) :
    find_perfections cfg rec chart querent quesited window_days = .error e := by
  unfold find_perfections
  rw [h]

/-- C9 (failing evaluation): `when_exact_in_days` itself degrades to
indeterminate for a missing body, but the full pipeline does **not** survive
incomplete charts: `_detect_collection_events` reaches
`_is_valid_collector`, whose raising `chart.planets[collector]` indexing
turns the first absent third body (Mercury) into an uncaught `KeyError`, so
`detect_all_events` and `find_perfections` fail outright. -/
theorem missing_planet_pipeline_keyerror :
    when_exact_in_days default_config chart_c9 .SUN .MERCURY .CONJUNCTION = none ∧
    detect_all_events default_config no_reception chart_c9 .SUN .MOON 30 =
      .error "KeyError" ∧
    find_perfections default_config no_reception chart_c9 .SUN .MOON 30 =
      .error "KeyError" := by
  have h1 : when_exact_in_days default_config chart_c9 .SUN .MERCURY
      .CONJUNCTION = none := by
    norm_num [when_exact_in_days, chart_c9]
  have hdirect : detect_direct_events default_config no_reception chart_c9
      .SUN .MOON 30 = .ok [] := by
    norm_num [detect_direct_events, aspect_scan_order, when_exact_in_days, chart_c9,
      aspectDelta, aspect_targets, Aspect.degrees, minByAbs, norm180, pymod,
      ratFloor_eq, get_daily_motion]
  have hcoll : detect_collection_events default_config no_reception chart_c9
      .SUN .MOON 30 = .error "KeyError" := by
    simp [detect_collection_events, collectExcept, collection_events_for,
      is_valid_collector, classical_planets, chart_c9]
  have h2 : detect_all_events default_config no_reception chart_c9 .SUN .MOON 30 =
      .error "KeyError" := by
    unfold detect_all_events
    rw [if_neg (by decide)]
    rw [hdirect]
    simp only []
    rw [hcoll]
  exact ⟨h1, h2, find_perfections_propagates _ _ _ _ _ _ _ h2⟩

theorem default_config_speed_advantage :
    default_config.translation_require_speed_advantage = true := rfl

theorem default_config_lookback :
    default_config.translation_max_lookback_days = 7 := rfl

theorem chart_c7_planets_sun :
    chart_c7.planets .SUN = some ⟨0, some 0, none, none, false⟩ := rfl

theorem chart_c7_planets_moon :
    chart_c7.planets .MOON = some ⟨11, some 13, none, none, false⟩ := rfl

theorem chart_c7_planets_mars :
    chart_c7.planets .MARS = some ⟨100, some 0, none, none, false⟩ := rfl

theorem chart_c7_planets_mercury : chart_c7.planets .MERCURY = none := rfl

theorem chart_c7_planets_venus : chart_c7.planets .VENUS = none := rfl

theorem chart_c7_planets_jupiter : chart_c7.planets .JUPITER = none := rfl

theorem chart_c7_planets_saturn : chart_c7.planets .SATURN = none := rfl

theorem chart_c7_sep :
    find_separating_aspect chart_c7 .MOON .SUN 30 =
      some ⟨Aspect.CONJUNCTION, -(11/13), .SUN⟩ := by
  norm_num [find_separating_aspect, chart_c7, aspect_scan_order, aspect_targets,
    Aspect.degrees, pymod, ratFloor_eq, get_daily_motion]

theorem chart_c7_when_conj :
    when_exact_in_days default_config chart_c7 .MOON .MARS .CONJUNCTION =
      some (89/13) := by
  norm_num [when_exact_in_days, chart_c7, aspectDelta, aspect_targets,
    Aspect.degrees, minByAbs, norm180, pymod, ratFloor_eq, get_daily_motion,
    forward_t, enforce_sign_guard, sign_exit_blocks, days_to_sign_exit,
    default_config]

theorem chart_c7_when_sextile :
    when_exact_in_days default_config chart_c7 .MOON .MARS .SEXTILE =
      some (29/13) := by
  norm_num [when_exact_in_days, chart_c7, aspectDelta, aspect_targets,
    Aspect.degrees, minByAbs, norm180, pymod, ratFloor_eq, get_daily_motion,
    forward_t, enforce_sign_guard, sign_exit_blocks, days_to_sign_exit,
    default_config]

theorem chart_c7_when_square :
    when_exact_in_days default_config chart_c7 .MOON .MARS .SQUARE =
      some (359/13) := by
  norm_num [when_exact_in_days, chart_c7, aspectDelta, aspect_targets,
    Aspect.degrees, minByAbs, norm180, pymod, ratFloor_eq, get_daily_motion,
    forward_t, enforce_sign_guard, sign_exit_blocks, days_to_sign_exit,
    default_config]

theorem chart_c7_when_trine :
    when_exact_in_days default_config chart_c7 .MOON .MARS .TRINE =
      some (329/13) := by
  norm_num [when_exact_in_days, chart_c7, aspectDelta, aspect_targets,
    Aspect.degrees, minByAbs, norm180, pymod, ratFloor_eq, get_daily_motion,
    forward_t, enforce_sign_guard, sign_exit_blocks, days_to_sign_exit,
    default_config]

theorem chart_c7_when_opp :
    when_exact_in_days default_config chart_c7 .MOON .MARS .OPPOSITION =
      some (269/13) := by
  norm_num [when_exact_in_days, chart_c7, aspectDelta, aspect_targets,
    Aspect.degrees, minByAbs, norm180, pymod, ratFloor_eq, get_daily_motion,
    forward_t, enforce_sign_guard, sign_exit_blocks, days_to_sign_exit,
    default_config]

theorem chart_c7_app :
    find_applying_aspect default_config chart_c7 .MOON .MARS 30 =
      some ⟨Aspect.SEXTILE, 29/13, .MARS⟩ := by
  norm_num [find_applying_aspect, aspect_scan_order, chart_c7_when_conj,
    chart_c7_when_sextile, chart_c7_when_square, chart_c7_when_trine,
    chart_c7_when_opp]

theorem when_exact_in_days_missing (cfg : HoraryConfig) (chart : HoraryChart)
    (a b : Planet) (asp : Aspect)
    (h : chart.planets a = none ∨ chart.planets b = none) :
    when_exact_in_days cfg chart a b asp = none := by
  rcases h with h | h
  · cases hb : chart.planets b <;> simp [when_exact_in_days, h, hb]
  · cases ha : chart.planets a <;> simp [when_exact_in_days, h, ha]

theorem find_applying_aspect_missing (cfg : HoraryConfig) (chart : HoraryChart)
    (a b : Planet) (w : ℚ)
    (h : chart.planets a = none ∨ chart.planets b = none) :
    find_applying_aspect cfg chart a b w = none := by
  have hw : ∀ asp, when_exact_in_days cfg chart a b asp = none := fun asp =>
    when_exact_in_days_missing cfg chart a b asp h
  simp [find_applying_aspect, aspect_scan_order, hw]

theorem find_separating_aspect_missing (chart : HoraryChart) (a b : Planet)
    (w : ℚ) (h : chart.planets a = none ∨ chart.planets b = none) :
    find_separating_aspect chart a b w = none := by
  rcases h with h | h
  · cases hb : chart.planets b <;> simp [find_separating_aspect, h, hb]
  · cases ha : chart.planets a <;> simp [find_separating_aspect, h, ha]

theorem chart_c7_next :
    find_earliest_application default_config chart_c7 .MOON 30 [.SUN] =
      some ⟨Aspect.SEXTILE, 29/13, .MARS⟩ := by
  simp [find_earliest_application, classical_planets, chart_c7_app,
    find_applying_aspect_missing, chart_c7_planets_mercury, chart_c7_planets_venus,
    chart_c7_planets_jupiter, chart_c7_planets_saturn]

theorem chart_c7_interceptor :
    first_interceptor default_config chart_c7 [.MOON, .SUN, .MARS] .MARS 30
      (29/13) = none := by
  simp [first_interceptor, classical_planets, find_applying_aspect_missing,
    chart_c7_planets_mercury, chart_c7_planets_venus, chart_c7_planets_jupiter,
    chart_c7_planets_saturn]

/-- C7 (failing evaluation): the Moon's separation leg is 11° past exact —
one degree beyond the configured 10° maximum separation limit — yet
`_detect_translation_events` still emits exactly one TRANSLATION event: the
source module applies no degree limit at all to either translation leg
(its aspect finders have no `max_degree` parameter, although the
repository's own tests call them with one). -/
theorem translation_no_degree_limit :
    find_separating_aspect chart_c7 .MOON .SUN 30 =
      some ⟨Aspect.CONJUNCTION, -(11/13), .SUN⟩ ∧
    (detect_translation_events default_config no_reception chart_c7
        .SUN .MARS 30).map (fun e => (e.event_type, e.mediator, e.exact_in_days)) =
      [(EventType.TRANSLATION, some Planet.MOON, some (29/13))] := by
  refine ⟨chart_c7_sep, ?_⟩
  unfold detect_translation_events
  rw [if_neg (by decide)]
  norm_num [translator_candidates, List.flatMap, chart_c7_sep, chart_c7_app,
    chart_c7_next, chart_c7_interceptor, find_separating_aspect_missing,
    find_applying_aspect_missing, chart_c7_planets_sun, chart_c7_planets_moon,
    chart_c7_planets_mars, chart_c7_planets_mercury, chart_c7_planets_venus,
    chart_c7_planets_jupiter, chart_c7_planets_saturn, get_daily_motion, EPS,
    default_config_speed_advantage, default_config_lookback]
  all_goals first
    | decide
    | simp

end PerfectionCore

